import Mathlib

/-!
# Verification of the slackmgr/examples settings hot-reload subsystem

Shallow embedding of the `flexible` example host program:

* `hash` — hex-encoded SHA-256 fingerprint of settings file bytes
  (`flexible/logger.go`, `hash`),
* `readManagerSettings` / `readAPISettings` — settings readers
  (`flexible/logger.go`),
* `refreshCycle` / `refreshSettings` — the settings refresh loop
  (`flexible/main.go`, `refreshSettings`),
* `configNew` and the `GetEnv*` helpers (`flexible/config/config.go`),
* backend factories `newAlertQueue` / `newCommandQueue` / `newDatabase`
  (`flexible/logger.go`),
* `mainImpl` / `exitMain` startup and shutdown logic (`flexible/main.go`).

I/O and external library calls (file reads, YAML unmarshalling, backend
client construction, `UpdateSettings` results) are modelled as oracle
parameters; all control flow, error wrapping and state updates are
translated from the Go source.
-/

set_option maxRecDepth 100000

namespace Flexible

/-! ## SHA-256 (Go `crypto/sha256`, as used by `hash` in flexible/logger.go)

Bytes are `Nat < 256`, 32-bit words are `Nat` reduced by `w32` where
overflow matters. -/

/-- Truncation to a 32-bit word. -/
def w32 (n : Nat) : Nat := n % 4294967296

/-- Right rotation of a 32-bit word. -/
def rotr32 (x n : Nat) : Nat := w32 ((x >>> n) ||| (x <<< (32 - n)))

/-- Bitwise complement of a 32-bit word. -/
def not32 (x : Nat) : Nat := x ^^^ 4294967295

/-- SHA-256 `Ch` function. -/
def chFn (e f g : Nat) : Nat := (e &&& f) ^^^ (not32 e &&& g)

/-- SHA-256 `Maj` function. -/
def majFn (a b c : Nat) : Nat := (a &&& b) ^^^ (a &&& c) ^^^ (b &&& c)

/-- SHA-256 big sigma 0. -/
def bsig0 (x : Nat) : Nat := rotr32 x 2 ^^^ rotr32 x 13 ^^^ rotr32 x 22

/-- SHA-256 big sigma 1. -/
def bsig1 (x : Nat) : Nat := rotr32 x 6 ^^^ rotr32 x 11 ^^^ rotr32 x 25

/-- SHA-256 small sigma 0. -/
def ssig0 (x : Nat) : Nat := rotr32 x 7 ^^^ rotr32 x 18 ^^^ (x >>> 3)

/-- SHA-256 small sigma 1. -/
def ssig1 (x : Nat) : Nat := rotr32 x 17 ^^^ rotr32 x 19 ^^^ (x >>> 10)

/-- The 64 SHA-256 round constants (FIPS 180-4, in decimal). -/
def sha256K : List Nat :=
  [1116352408, 1899447441, 3049323471, 3921009573, 961987163,
   1508970993, 2453635748, 2870763221, 3624381080, 310598401,
   607225278, 1426881987, 1925078388, 2162078206, 2614888103,
   3248222580, 3835390401, 4022224774, 264347078, 604807628,
   770255983, 1249150122, 1555081692, 1996064986, 2554220882,
   2821834349, 2952996808, 3210313671, 3336571891, 3584528711,
   113926993, 338241895, 666307205, 773529912, 1294757372,
   1396182291, 1695183700, 1986661051, 2177026350, 2456956037,
   2730485921, 2820302411, 3259730800, 3345764771, 3516065817,
   3600352804, 4094571909, 275423344, 430227734, 506948616,
   659060556, 883997877, 958139571, 1322822218, 1537002063,
   1747873779, 1955562222, 2024104815, 2227730452, 2361852424,
   2428436474, 2756734187, 3204031479, 3329325298]

/-- The SHA-256 initial hash value (FIPS 180-4, in decimal). -/
def sha256H0 : List Nat :=
  [1779033703, 3144134277, 1013904242,
   2773480762, 1359893119, 2600822924,
   528734635, 1541459225]

/-- Group a byte list into big-endian 32-bit words. -/
def bytesToWordsBE : List Nat → List Nat
  | b0 :: b1 :: b2 :: b3 :: rest =>
      (((b0 * 256 + b1) * 256 + b2) * 256 + b3) :: bytesToWordsBE rest
  | _ => []

/-- A big-endian 32-bit word as four bytes. -/
def wordToBytesBE (w : Nat) : List Nat :=
  [(w >>> 24) % 256, (w >>> 16) % 256, (w >>> 8) % 256, w % 256]

/-- Extend the 16-word message block by `n` further schedule words. -/
def sha256Extend : Nat → List Nat → List Nat
  | 0, ws => ws
  | n + 1, ws =>
      let k := ws.length
      let w := w32 (ssig1 (ws.getD (k - 2) 0) + ws.getD (k - 7) 0 +
                    ssig0 (ws.getD (k - 15) 0) + ws.getD (k - 16) 0)
      sha256Extend n (ws ++ [w])

/-- The eight SHA-256 working variables. -/
structure Sha256State where
  a : Nat
  b : Nat
  c : Nat
  d : Nat
  e : Nat
  f : Nat
  g : Nat
  h : Nat

/-- One SHA-256 compression round; `kw` pairs the round constant with the
schedule word. -/
def sha256Round (s : Sha256State) (kw : Nat × Nat) : Sha256State :=
  let t1 := w32 (s.h + bsig1 s.e + chFn s.e s.f s.g + kw.1 + kw.2)
  let t2 := w32 (bsig0 s.a + majFn s.a s.b s.c)
  ⟨w32 (t1 + t2), s.a, s.b, s.c, w32 (s.d + t1), s.e, s.f, s.g⟩

/-- Compress one 64-byte block into the running hash (eight words). -/
def sha256Compress (hs : List Nat) (block : List Nat) : List Nat :=
  let ws := sha256Extend 48 (bytesToWordsBE block)
  let init : Sha256State :=
    ⟨hs.getD 0 0, hs.getD 1 0, hs.getD 2 0, hs.getD 3 0,
     hs.getD 4 0, hs.getD 5 0, hs.getD 6 0, hs.getD 7 0⟩
  let fin := (sha256K.zip ws).foldl sha256Round init
  [w32 (hs.getD 0 0 + fin.a), w32 (hs.getD 1 0 + fin.b),
   w32 (hs.getD 2 0 + fin.c), w32 (hs.getD 3 0 + fin.d),
   w32 (hs.getD 4 0 + fin.e), w32 (hs.getD 5 0 + fin.f),
   w32 (hs.getD 6 0 + fin.g), w32 (hs.getD 7 0 + fin.h)]

/-- SHA-256 padding: a `0x80` byte, zeros to 56 mod 64, then the bit length
as eight big-endian bytes. -/
def sha256Pad (msg : List Nat) : List Nat :=
  let len := msg.length
  let zeros := (119 - (len % 64)) % 64
  let bitLen := len * 8
  msg ++ [128] ++ List.replicate zeros 0 ++
    (List.range 8).map (fun i => (bitLen >>> (8 * (7 - i))) % 256)

/-- Fold the compression function over `n` consecutive 64-byte blocks
(the padded message has exactly `length / 64` blocks). -/
def sha256Run : Nat → List Nat → List Nat → List Nat
  | 0, hs, _ => hs
  | n + 1, hs, msg => sha256Run n (sha256Compress hs (msg.take 64)) (msg.drop 64)

/-- The SHA-256 digest of a byte sequence, as 32 bytes. -/
def sha256 (msg : List Nat) : List Nat :=
  let padded := sha256Pad msg
  List.flatten ((sha256Run (padded.length / 64) sha256H0 padded).map wordToBytesBE)

/-- One lowercase hexadecimal digit. -/
def hexDigit (n : Nat) : Char :=
  if n < 10 then Char.ofNat (48 + n) else Char.ofNat (87 + n)

/-- Lowercase hex encoding of a byte sequence (Go `encoding/hex`). -/
def hexEncode (bs : List Nat) : String :=
  String.mk (List.flatten (bs.map (fun b => [hexDigit ((b / 16) % 16), hexDigit (b % 16)])))

/-- `hash` from flexible/logger.go: hex-encoded SHA-256 of the input bytes. -/
def hash (input : List Nat) : String := hexEncode (sha256 input)

/-- FIPS 180-4 test vector: SHA-256 of the empty message. -/
theorem hash_empty_vector :
    hash [] = "e3b0c44298fc1c149afbf4c8996fb92427ae41e4649b934ca495991b7852b855" := by
  decide

/-- FIPS 180-4 test vector: SHA-256 of ASCII "abc". -/
theorem hash_abc_vector :
    hash [97, 98, 99] = "ba7816bf8f01cfea414140de5dae2223b00361a396177a9cb410ff61f20015ad" := by
  decide

/-! ## Go errors and process exit (flexible/main.go `exitMain`)

A Go `error` is modelled as `context.Canceled`, a leaf error built from a
message (`fmt.Errorf` / `errors.New` without `%w`), or a wrapping error
(`fmt.Errorf("...: %w", err)`).  `errors.Is(err, context.Canceled)`
unwraps through `wrap` nodes. -/

/-- A Go error value: `context.Canceled`, a leaf message, or a wrapper. -/
inductive GoErr where
  | canceled
  | msg (s : String)
  | wrap (w : String) (inner : GoErr)
deriving DecidableEq

/-- `errors.Is(err, context.Canceled)`: true iff the unwrap chain reaches
`context.Canceled`. -/
def errorsIsCanceled : GoErr → Bool
  | .canceled => true
  | .msg _ => false
  | .wrap _ inner => errorsIsCanceled inner

/-- `exitMain` from flexible/main.go: the process exit code for the error
returned by `mainImpl` (`none` models a nil error). -/
def exitMain : Option GoErr → Nat
  | none => 0
  | some err => if errorsIsCanceled err then 0 else 1

/-! ## Startup configuration (flexible/config/config.go)

The process environment is `environ : String → Option String`
(`none` = variable unset).  `GetEnvIntIfSet` and `GetEnvBoolIfSet` panic on
malformed values; panics are modelled as the `.error` branch of
`Except String`, carrying the panic message. -/

/-- Decimal digit run to a number; `none` on a non-digit. -/
def decDigitsAux : List Char → Nat → Option Nat
  | [], acc => some acc
  | c :: rest, acc =>
      if 48 ≤ c.toNat && c.toNat ≤ 57 then decDigitsAux rest (acc * 10 + (c.toNat - 48))
      else none

/-- Value of a non-empty decimal digit string. -/
def decDigitsVal (cs : List Char) : Option Nat :=
  match cs with
  | [] => none
  | _ => decDigitsAux cs 0

/-- Go `strconv.Atoi` syntax: optional sign then one or more digits
(range checking is done by the caller model). -/
def goAtoi (s : String) : Option Int :=
  match s.toList with
  | '+' :: rest => (decDigitsVal rest).map (fun n => (n : Int))
  | '-' :: rest => (decDigitsVal rest).map (fun n => -(n : Int))
  | cs => (decDigitsVal cs).map (fun n => (n : Int))

/-- Go `strconv.ParseBool`: accepts 1/t/T/TRUE/true/True and
0/f/F/FALSE/false/False. -/
def goParseBool (s : String) : Option Bool :=
  if s = "1" ∨ s = "t" ∨ s = "T" ∨ s = "TRUE" ∨ s = "true" ∨ s = "True" then some true
  else if s = "0" ∨ s = "f" ∨ s = "F" ∨ s = "FALSE" ∨ s = "false" ∨ s = "False" then
    some false
  else none

/-- Go `os.Getenv`: empty string when the variable is unset. -/
def getenv (environ : String → Option String) (v : String) : String :=
  (environ v).getD ""

/-- `GetEnvIfSet` from config.go (`os.LookupEnv` with a default). -/
def GetEnvIfSet (environ : String → Option String) (envVar defaultValue : String) : String :=
  match environ envVar with
  | some val => val
  | none => defaultValue

/-- `GetEnvIntIfSet` from config.go; a set, malformed value panics
(modelled as `.error` carrying the panic message). -/
def GetEnvIntIfSet (environ : String → Option String) (envVar : String)
    (defaultValue : Int) : Except String Int :=
  let str := getenv environ envVar
  if str ≠ "" then
    match goAtoi str with
    | some val =>
        if val < -9223372036854775808 ∨ 9223372036854775807 < val then
          .error ("failed to parse environment variable " ++ envVar ++
            " as int: strconv.Atoi: parsing \"" ++ str ++ "\": value out of range")
        else .ok val
    | none =>
        .error ("failed to parse environment variable " ++ envVar ++
          " as int: strconv.Atoi: parsing \"" ++ str ++ "\": invalid syntax")
  else .ok defaultValue

/-- `GetEnvSecondsIfSet` from config.go: the parsed value as a
`time.Duration` (int64 nanoseconds). -/
def GetEnvSecondsIfSet (environ : String → Option String) (envVar : String)
    (defaultValue : Int) : Except String Int :=
  (GetEnvIntIfSet environ envVar defaultValue).map (fun val => val * 1000000000)

/-- `GetEnvBoolIfSet` from config.go; a set, malformed value panics. -/
def GetEnvBoolIfSet (environ : String → Option String) (envVar : String)
    (defaultValue : Bool) : Except String Bool :=
  let str := getenv environ envVar
  if str ≠ "" then
    match goParseBool str with
    | some val => .ok val
    | none =>
        .error ("failed to parse environment variable " ++ envVar ++
          " as bool: strconv.ParseBool: parsing \"" ++ str ++ "\": invalid syntax")
  else .ok defaultValue

/-- Go `int32(...)` conversion (two's-complement wrap). -/
def toInt32 (n : Int) : Int := ((n + 2147483648) % 4294967296) - 2147483648

/-- Go `int64(...)` conversion (two's-complement wrap). -/
def toInt64 (n : Int) : Int :=
  ((n + 9223372036854775808) % 18446744073709551616) - 9223372036854775808

/-- `SqsQueueConfig` from config.go. -/
structure SqsQueueConfig where
  QueueName : String
  VisibilityTimeoutSeconds : Int
  MaxNumberOfMessages : Int
  WaitTimeSeconds : Int
deriving DecidableEq

/-- `DynamoDBConfig` from config.go. -/
structure DynamoDBConfig where
  TableName : String
deriving DecidableEq

/-- `AwsConfig` from config.go. -/
structure AwsConfig where
  Region : String
  Key : String
  SecretKey : String
  SessionToken : String
  AssumeRole : String
  MaxRetryAttempts : Int
  MaxRetryBackoffDelay : Int
  Concurrency : Int
  SqsEndpoint : String
  AlertQueue : SqsQueueConfig
  CommandQueue : SqsQueueConfig
  DynamoDB : DynamoDBConfig
deriving DecidableEq

/-- `PostgresConfig` from config.go. -/
structure PostgresConfig where
  Host : String
  Port : Int
  User : String
  Password : String
  Database : String
  SSLMode : String
  IssuesTable : String
  AlertsTable : String
  MoveMappingsTable : String
  ChannelProcessingStateTable : String
deriving DecidableEq

/-- `SlackConfig` from config.go. -/
structure SlackConfig where
  AppToken : String
  BotToken : String
deriving DecidableEq

/-- `RedisConfig` from config.go. -/
structure RedisConfig where
  Addr : String
  Username : String
  Password : String
  DB : Int
deriving DecidableEq

/-- `Config` from config.go. -/
structure Config where
  LogJSON : Bool
  Verbose : Bool
  Location : String
  RestPort : String
  EncryptionKey : String
  SkipDatabaseCache : Bool
  EnableMetrics : Bool
  MetricsPort : String
  QueueMode : String
  DatabaseMode : String
  ManagerSettingsFilename : String
  APISettingsFilename : String
  Aws : AwsConfig
  Postgres : PostgresConfig
  Slack : SlackConfig
  Redis : RedisConfig
deriving DecidableEq

/-- `config.New()` from config.go, with the `GetEnv*` calls sequenced in
the struct literal's evaluation order; `.error` is a startup panic. -/
def configNew (environ : String → Option String) : Except String Config := do
  let logJSON ← GetEnvBoolIfSet environ "LOG_JSON" true
  let verbose ← GetEnvBoolIfSet environ "VERBOSE" false
  let location := GetEnvIfSet environ "LOCATION" "Europe/Oslo"
  let restPort := GetEnvIfSet environ "REST_PORT" "8080"
  let encryptionKey := GetEnvIfSet environ "ENCRYPTION_KEY" ""
  let skipDatabaseCache ← GetEnvBoolIfSet environ "SKIP_DATABASE_CACHE" false
  let enableMetrics ← GetEnvBoolIfSet environ "ENABLE_METRICS" true
  let metricsPort := GetEnvIfSet environ "METRICS_PORT" "9090"
  let queueMode := GetEnvIfSet environ "QUEUE_MODE" "redis"
  let databaseMode := GetEnvIfSet environ "DATABASE_MODE" "postgres"
  let managerSettingsFilename :=
    GetEnvIfSet environ "MANAGER_SETTINGS_FILENAME" "manager-settings.yaml"
  let apiSettingsFilename := GetEnvIfSet environ "API_SETTINGS_FILENAME" "api-settings.yaml"
  let awsRegion := GetEnvIfSet environ "AWS_REGION" ""
  let awsKey := GetEnvIfSet environ "AWS_ACCESS_KEY_ID" ""
  let awsSecretKey := GetEnvIfSet environ "AWS_SECRET_ACCESS_KEY" ""
  let awsSessionToken := GetEnvIfSet environ "AWS_SESSION_TOKEN" ""
  let awsAssumeRole := GetEnvIfSet environ "AWS_ASSUME_ROLE" ""
  let awsMaxRetryAttempts ← GetEnvIntIfSet environ "AWS_MAX_RETRY_ATTEMPTS" 5
  let awsMaxRetryBackoffDelay ← GetEnvSecondsIfSet environ "AWS_MAX_RETRY_BACKOFF_DELAY" 30
  let awsConcurrency ← GetEnvIntIfSet environ "AWS_CONCURRENCY" 10
  let awsSqsEndpoint := GetEnvIfSet environ "AWS_SQS_ENDPOINT" ""
  let alertQueueName := GetEnvIfSet environ "AWS_SQS_ALERT_QUEUE_NAME" ""
  let alertQueueVT ← GetEnvIntIfSet environ "AWS_SQS_ALERT_QUEUE_VISIBILITY_TIMEOUT_SECONDS" 30
  let alertQueueMax ← GetEnvIntIfSet environ "AWS_SQS_ALERT_QUEUE_MAX_NUMBER_OF_MESSAGES" 10
  let alertQueueWait ← GetEnvIntIfSet environ "AWS_SQS_ALERT_QUEUE_WAIT_TIME_SECONDS" 20
  let commandQueueName := GetEnvIfSet environ "AWS_SQS_COMMAND_QUEUE_NAME" ""
  let commandQueueVT ←
    GetEnvIntIfSet environ "AWS_SQS_COMMAND_QUEUE_VISIBILITY_TIMEOUT_SECONDS" 30
  let commandQueueMax ← GetEnvIntIfSet environ "AWS_SQS_COMMAND_QUEUE_MAX_NUMBER_OF_MESSAGES" 10
  let commandQueueWait ← GetEnvIntIfSet environ "AWS_SQS_COMMAND_QUEUE_WAIT_TIME_SECONDS" 20
  let dynamoTableName := GetEnvIfSet environ "AWS_DYNAMODB_TABLE_NAME" ""
  let pgHost := GetEnvIfSet environ "POSTGRES_HOST" ""
  let pgPort ← GetEnvIntIfSet environ "POSTGRES_PORT" 0
  let pgUser := GetEnvIfSet environ "POSTGRES_USER" ""
  let pgPassword := GetEnvIfSet environ "POSTGRES_PASSWORD" ""
  let pgDatabase := GetEnvIfSet environ "POSTGRES_DATABASE" ""
  let pgSSLMode := GetEnvIfSet environ "POSTGRES_SSL_MODE" "disable"
  let pgIssuesTable := GetEnvIfSet environ "POSTGRES_ISSUES_TABLE" "issues"
  let pgAlertsTable := GetEnvIfSet environ "POSTGRES_ALERTS_TABLE" "alerts"
  let pgMoveMappingsTable := GetEnvIfSet environ "POSTGRES_MOVE_MAPPINGS_TABLE" "move_mappings"
  let pgChannelStateTable :=
    GetEnvIfSet environ "POSTGRES_CHANNEL_PROCESSING_STATE_TABLE" "channel_processing_state"
  let slackAppToken := GetEnvIfSet environ "SLACK_APP_TOKEN" ""
  let slackBotToken := GetEnvIfSet environ "SLACK_BOT_TOKEN" ""
  let redisAddr := GetEnvIfSet environ "REDIS_ADDR" ""
  let redisPassword := GetEnvIfSet environ "REDIS_PASSWORD" ""
  let redisUsername := GetEnvIfSet environ "REDIS_USERNAME" ""
  let redisDB ← GetEnvIntIfSet environ "REDIS_DB" 0
  return {
    LogJSON := logJSON
    Verbose := verbose
    Location := location
    RestPort := restPort
    EncryptionKey := encryptionKey
    SkipDatabaseCache := skipDatabaseCache
    EnableMetrics := enableMetrics
    MetricsPort := metricsPort
    QueueMode := queueMode
    DatabaseMode := databaseMode
    ManagerSettingsFilename := managerSettingsFilename
    APISettingsFilename := apiSettingsFilename
    Aws := {
      Region := awsRegion
      Key := awsKey
      SecretKey := awsSecretKey
      SessionToken := awsSessionToken
      AssumeRole := awsAssumeRole
      MaxRetryAttempts := awsMaxRetryAttempts
      MaxRetryBackoffDelay := awsMaxRetryBackoffDelay
      Concurrency := toInt64 awsConcurrency
      SqsEndpoint := awsSqsEndpoint
      AlertQueue := {
        QueueName := alertQueueName
        VisibilityTimeoutSeconds := toInt32 alertQueueVT
        MaxNumberOfMessages := toInt32 alertQueueMax
        WaitTimeSeconds := toInt32 alertQueueWait }
      CommandQueue := {
        QueueName := commandQueueName
        VisibilityTimeoutSeconds := toInt32 commandQueueVT
        MaxNumberOfMessages := toInt32 commandQueueMax
        WaitTimeSeconds := toInt32 commandQueueWait }
      DynamoDB := { TableName := dynamoTableName } }
    Postgres := {
      Host := pgHost
      Port := pgPort
      User := pgUser
      Password := pgPassword
      Database := pgDatabase
      SSLMode := pgSSLMode
      IssuesTable := pgIssuesTable
      AlertsTable := pgAlertsTable
      MoveMappingsTable := pgMoveMappingsTable
      ChannelProcessingStateTable := pgChannelStateTable }
    Slack := { AppToken := slackAppToken, BotToken := slackBotToken }
    Redis := {
      Addr := redisAddr
      Username := redisUsername
      Password := redisPassword
      DB := redisDB } }

/-! ## Settings readers (flexible/logger.go)

The settings document types are abstract parameters `M` (manager settings)
and `A` (API settings); YAML unmarshalling is a deterministic oracle
`List Nat → Except String M`.  The `os.ReadFile(filepath.Clean(filename))`
outcome is passed in as `readResult` (`.error` = read failure). -/

variable {M A : Type}

/-- `readManagerSettings` from flexible/logger.go: on success returns the
parsed document together with `hash` of the raw bytes. -/
def readManagerSettings (parse : List Nat → Except String M)
    (readResult : Except String (List Nat)) (filename : String) :
    Except String (M × String) :=
  match readResult with
  | .error e => .error ("failed to read manager settings file " ++ filename ++ ": " ++ e)
  | .ok settingsYaml =>
    match parse settingsYaml with
    | .error e => .error ("failed to unmarshal manager settings from " ++ filename ++ ": " ++ e)
    | .ok settings => .ok (settings, hash settingsYaml)

/-- `readAPISettings` from flexible/logger.go: on success returns the
parsed document together with `hash` of the raw bytes. -/
def readAPISettings (parse : List Nat → Except String A)
    (readResult : Except String (List Nat)) (filename : String) :
    Except String (A × String) :=
  match readResult with
  | .error e => .error ("failed to read API settings file " ++ filename ++ ": " ++ e)
  | .ok settingsYaml =>
    match parse settingsYaml with
    | .error e => .error ("failed to unmarshal API settings from " ++ filename ++ ": " ++ e)
    | .ok settings => .ok (settings, hash settingsYaml)

/-! ## The settings refresh loop (flexible/main.go `refreshSettings`)

Per timer cycle the loop reads both settings files, compares fingerprints
and pushes changed documents into the service handles.  The per-cycle
oracle `CycleEnv` carries the two file-read outcomes and the results the
two `UpdateSettings` calls would return if made. -/

instance {ε α : Type} [DecidableEq ε] [DecidableEq α] : DecidableEq (Except ε α) := fun x y =>
  match x, y with
  | .error a, .error b =>
      if h : a = b then .isTrue (congrArg Except.error h)
      else .isFalse (fun hc => h (Except.error.inj hc))
  | .ok a, .ok b =>
      if h : a = b then .isTrue (congrArg Except.ok h)
      else .isFalse (fun hc => h (Except.ok.inj hc))
  | .error _, .ok _ => .isFalse (fun hc => Except.noConfusion hc)
  | .ok _, .error _ => .isFalse (fun hc => Except.noConfusion hc)

/-- The loop's mutable state: the two stored fingerprints
(`managerSettingsHash` and `apiSettingsHash` in `refreshSettings`). -/
structure RefreshState where
  managerSettingsHash : String
  apiSettingsHash : String
deriving DecidableEq

/-- One `UpdateSettings` call as observed by a service handle: the document
pushed and the returned error (`none` = nil). -/
structure UpdateCall (D : Type) where
  doc : D
  result : Option String
deriving DecidableEq

/-- The externally visible effects of one timer cycle: the `UpdateSettings`
calls made on the manager and on the API server, in order. -/
structure CycleTrace (M A : Type) where
  managerCalls : List (UpdateCall M)
  apiCalls : List (UpdateCall A)
deriving DecidableEq

/-- The environment one timer cycle runs in: the `os.ReadFile` outcomes for
the two settings files at that moment, and the error each service handle's
`UpdateSettings` would return if called in this cycle. -/
structure CycleEnv (M A : Type) where
  managerFile : Except String (List Nat)
  apiFile : Except String (List Nat)
  managerUpdateErr : Option String
  apiUpdateErr : Option String
deriving DecidableEq

/-- The body of the `case <-time.After(10 * time.Second)` branch of
`refreshSettings` (flexible/main.go:169-189): read, compare, update for the
manager settings and then for the API settings.  Read/parse failures are
logged and skip that kind; when the fingerprint differs the update is
called and — exactly as in the source — the stored fingerprint is assigned
the new hash whether or not the update returned an error. -/
def refreshCycle (pm : List Nat → Except String M) (pa : List Nat → Except String A)
    (cfg : Config) (env : CycleEnv M A) (st : RefreshState) :
    RefreshState × CycleTrace M A :=
  let managerStep : String × List (UpdateCall M) :=
    match readManagerSettings pm env.managerFile cfg.ManagerSettingsFilename with
    | .error _ => (st.managerSettingsHash, [])
    | .ok (managerSettings, h) =>
        if h ≠ st.managerSettingsHash then
          (h, [⟨managerSettings, env.managerUpdateErr⟩])
        else
          (st.managerSettingsHash, [])
  let apiStep : String × List (UpdateCall A) :=
    match readAPISettings pa env.apiFile cfg.APISettingsFilename with
    | .error _ => (st.apiSettingsHash, [])
    | .ok (apiSettings, h) =>
        if h ≠ st.apiSettingsHash then
          (h, [⟨apiSettings, env.apiUpdateErr⟩])
        else
          (st.apiSettingsHash, [])
  (⟨managerStep.1, apiStep.1⟩, ⟨managerStep.2, apiStep.2⟩)

/-- One wake-up of the loop's `select`: either the shared context is done
(cancellation), or the 10-second timer fired with the given cycle
environment. -/
inductive LoopEvent (M A : Type) where
  | cancelled
  | timer (env : CycleEnv M A)
deriving DecidableEq

/-- Outcome of running the refresh loop against a finite schedule of
wake-ups: either the loop returned (`ctx.Err()`), or the schedule was
exhausted with the loop still waiting. -/
inductive LoopResult (M A : Type) where
  | returned (err : GoErr) (trace : List (CycleTrace M A)) (final : RefreshState)
  | running (trace : List (CycleTrace M A)) (st : RefreshState)
deriving DecidableEq

/-- `refreshSettings` from flexible/main.go, run against a schedule of
select wake-ups.  On `ctx.Done()` it returns `ctx.Err()`
(`context.Canceled` once the shared context is cancelled); on a timer
firing it runs one full cycle and loops. -/
def refreshSettings (pm : List Nat → Except String M) (pa : List Nat → Except String A)
    (cfg : Config) : List (LoopEvent M A) → RefreshState → LoopResult M A
  | [], st => .running [] st
  | .cancelled :: _, st => .returned .canceled [] st
  | .timer env :: rest, st =>
      let step := refreshCycle pm pa cfg env st
      match refreshSettings pm pa cfg rest step.1 with
      | .returned err trs fin => .returned err (step.2 :: trs) fin
      | .running trs s => .running (step.2 :: trs) s

/-! ## Backend factories (flexible/logger.go)

Construction of external clients (Redis queues, SQS, DynamoDB, Postgres,
AWS config loading) is fallible I/O; each external call's outcome is an
oracle field of `BackendWorld`.  The mode dispatch, the empty-parameter
checks and the error messages are translated from the source. -/

/-- Go `unicode.ToLower` restricted to ASCII (settings mode strings are
ASCII; `String.toLower` does not reduce in the kernel). -/
def goCharToLower (c : Char) : Char :=
  if 65 ≤ c.toNat && c.toNat ≤ 90 then Char.ofNat (c.toNat + 32) else c

/-- Go `strings.ToLower`. -/
def goToLower (s : String) : String := String.mk (s.data.map goCharToLower)

/-- Outcomes of the external client-construction calls made by the backend
factories. -/
structure BackendWorld where
  awsLoadCfg : Except String Unit
  sqsAlertInit : Except String Unit
  sqsCommandInit : Except String Unit
  redisAlertInit : Except String Unit
  redisCommandInit : Except String Unit
  dynamoConnect : Except String Unit
  dynamoInit : Except String Unit
  postgresConnect : Except String Unit
  postgresInit : Except String Unit

/-- `newRedisClient` from flexible/logger.go: fails iff the Redis address
is empty. -/
def newRedisClient (cfg : RedisConfig) : Except String Unit :=
  if cfg.Addr = "" then .error "redis address is empty" else .ok ()

/-- `createAwsCfg` from flexible/logger.go: empty region is an error, then
`LoadDefaultConfig` may fail. -/
def createAwsCfg (w : BackendWorld) (c : AwsConfig) : Except String Unit :=
  if c.Region = "" then .error "cannot create AWS config with empty region"
  else w.awsLoadCfg

/-- `newSQSClient` from flexible/logger.go: AWS config creation then the
client's `Init`. -/
def newSQSClient (w : BackendWorld) (c : AwsConfig) (initResult : Except String Unit) :
    Except String Unit := do
  createAwsCfg w c
  initResult

/-- `newAlertQueue` from flexible/logger.go: dispatch on
`strings.ToLower(cfg.QueueMode)`; an unrecognized value (including the
empty string — this factory has no explicit `""` case) is an error naming
the unknown mode. -/
def newAlertQueue (w : BackendWorld) (cfg : Config) : Except String Unit :=
  if goToLower cfg.QueueMode = "sqs" then newSQSClient w cfg.Aws w.sqsAlertInit
  else if goToLower cfg.QueueMode = "redis" then w.redisAlertInit
  else if goToLower cfg.QueueMode = "in-memory" then .ok ()
  else .error ("unknown queue mode: " ++ cfg.QueueMode)

/-- `newCommandQueue` from flexible/logger.go: like `newAlertQueue` but
with an explicit empty-string case. -/
def newCommandQueue (w : BackendWorld) (cfg : Config) : Except String Unit :=
  if goToLower cfg.QueueMode = "sqs" then newSQSClient w cfg.Aws w.sqsCommandInit
  else if goToLower cfg.QueueMode = "redis" then w.redisCommandInit
  else if goToLower cfg.QueueMode = "in-memory" then .ok ()
  else if goToLower cfg.QueueMode = "" then .error "queue mode is not set (QUEUE_MODE=<mode>)"
  else .error ("unknown queue mode: " ++ cfg.QueueMode)

/-- `newDynamoDBClient` from flexible/logger.go. -/
def newDynamoDBClient (w : BackendWorld) (c : AwsConfig) : Except String Unit := do
  createAwsCfg w c
  match w.dynamoConnect with
  | .error e => .error ("failed to connect to DynamoDB: " ++ e)
  | .ok _ =>
    match w.dynamoInit with
    | .error e => .error ("failed to initialize DynamoDB client: " ++ e)
    | .ok _ => .ok ()

/-- `newPostgresClient` from flexible/logger.go. -/
def newPostgresClient (w : BackendWorld) (c : PostgresConfig) : Except String Unit :=
  if c.Host = "" then .error "postgres host is empty"
  else do
    w.postgresConnect
    w.postgresInit

/-- `newDatabase` from flexible/logger.go: dispatch on
`strings.ToLower(cfg.DatabaseMode)`. -/
def newDatabase (w : BackendWorld) (cfg : Config) : Except String Unit :=
  if goToLower cfg.DatabaseMode = "dynamodb" then newDynamoDBClient w cfg.Aws
  else if goToLower cfg.DatabaseMode = "postgres" then newPostgresClient w cfg.Postgres
  else if goToLower cfg.DatabaseMode = "" then
    .error "database mode is not set (DATABASE_MODE=<mode>)"
  else .error ("unknown database mode: " ++ cfg.DatabaseMode)

/-! ## `mainImpl` (flexible/main.go)

The startup sequence is translated step by step; external outcomes
(backend construction, `Validate`, `time.LoadLocation`, the startup file
reads and the errgroup's `Wait`) are oracle fields of `MainWorld`.
A panic is the `.error` branch of `Except String`; `mainImpl`'s deferred
`recover` converts it to a returned error carrying the panic value and
stack.  The boolean in the result records whether the three long-lived
tasks (API server, manager, refresh loop) were started. -/

/-- Oracles for the external calls `mainImpl` makes after `config.New()`. -/
structure MainWorld (M A : Type) where
  backends : BackendWorld
  loadLocation : Except String Unit
  managerCfgValidate : Except String Unit
  apiCfgValidate : Except String Unit
  managerFile : Except String (List Nat)
  apiFile : Except String (List Nat)
  groupResult : Option GoErr
  stack : String

/-- The body of `mainImpl` after `config.New()` (flexible/main.go:41-158):
each failing step returns the wrapped error before the errgroup is
started; `getLocation` panics (`.error`) when `time.LoadLocation` fails;
when every step succeeds the three tasks run and `errg.Wait()`'s result is
returned. -/
def mainImplBody (pm : List Nat → Except String M) (pa : List Nat → Except String A)
    (cfg : Config) (w : MainWorld M A) : Except String (Option GoErr × Bool) :=
  match newRedisClient cfg.Redis with
  | .error e => .ok (some (.wrap "failed to create redis client" (.msg e)), false)
  | .ok _ =>
  match newAlertQueue w.backends cfg with
  | .error e => .ok (some (.wrap "failed to create alert queue" (.msg e)), false)
  | .ok _ =>
  match newCommandQueue w.backends cfg with
  | .error e => .ok (some (.wrap "failed to create command queue" (.msg e)), false)
  | .ok _ =>
  match newDatabase w.backends cfg with
  | .error e => .ok (some (.wrap "failed to create database client" (.msg e)), false)
  | .ok _ =>
  match w.loadLocation with
  | .error e => .error ("failed to load location " ++ cfg.Location ++ ": " ++ e)
  | .ok _ =>
  match w.managerCfgValidate with
  | .error e => .ok (some (.wrap "invalid manager configuration" (.msg e)), false)
  | .ok _ =>
  match readManagerSettings pm w.managerFile cfg.ManagerSettingsFilename with
  | .error e => .ok (some (.wrap "failed to read manager settings" (.msg e)), false)
  | .ok _ =>
  match w.apiCfgValidate with
  | .error e => .ok (some (.wrap "invalid API configuration" (.msg e)), false)
  | .ok _ =>
  match readAPISettings pa w.apiFile cfg.APISettingsFilename with
  | .error e => .ok (some (.wrap "failed to read API settings" (.msg e)), false)
  | .ok _ =>
  .ok (w.groupResult, true)

/-- `mainImpl` from flexible/main.go: `config.New()` then the body, with
the deferred `recover` turning any panic into
`fmt.Errorf("panic: %v\n%s", r, debug.Stack())`. -/
def mainImpl (environ : String → Option String) (pm : List Nat → Except String M)
    (pa : List Nat → Except String A) (w : MainWorld M A) : Option GoErr × Bool :=
  match (configNew environ).bind (fun cfg => mainImplBody pm pa cfg w) with
  | .error panicMsg => (some (.msg ("panic: " ++ panicMsg ++ "\n" ++ w.stack)), false)
  | .ok r => r

/-- `main` from flexible/main.go: `exitMain(mainImpl())`, as the resulting
process exit code. -/
def mainExitCode (environ : String → Option String) (pm : List Nat → Except String M)
    (pa : List Nat → Except String A) (w : MainWorld M A) : Nat :=
  exitMain (mainImpl environ pm pa w).1

/-! ## Fixtures for witnesses -/

/-- Fixture parse oracle: a settings document is its byte count. -/
def parseLen (b : List Nat) : Except String Nat := .ok b.length

/-- The configuration `config.New()` produces in an empty environment
(all defaults from config.go). -/
def cfg0 : Config :=
  { LogJSON := true
    Verbose := false
    Location := "Europe/Oslo"
    RestPort := "8080"
    EncryptionKey := ""
    SkipDatabaseCache := false
    EnableMetrics := true
    MetricsPort := "9090"
    QueueMode := "redis"
    DatabaseMode := "postgres"
    ManagerSettingsFilename := "manager-settings.yaml"
    APISettingsFilename := "api-settings.yaml"
    Aws :=
      { Region := "", Key := "", SecretKey := "", SessionToken := "", AssumeRole := ""
        MaxRetryAttempts := 5, MaxRetryBackoffDelay := 30000000000, Concurrency := 10
        SqsEndpoint := ""
        AlertQueue := ⟨"", 30, 10, 20⟩, CommandQueue := ⟨"", 30, 10, 20⟩
        DynamoDB := ⟨""⟩ }
    Postgres :=
      ⟨"", 0, "", "", "", "disable", "issues", "alerts", "move_mappings",
        "channel_processing_state"⟩
    Slack := ⟨"", ""⟩
    Redis := ⟨"", "", "", 0⟩ }

/-- Validation: `config.New()` on an empty environment returns the
defaults and does not panic. -/
theorem configNew_empty : configNew (fun _ => none) = .ok cfg0 := by rfl

/-- Fixture cycle environment: both files readable (empty bytes and
"abc"), both updates would succeed. -/
def envW : CycleEnv Nat Nat := ⟨.ok [], .ok [97, 98, 99], none, none⟩

/-- Fixture state with baselines differing from both files' hashes. -/
def st0 : RefreshState := ⟨"", ""⟩

/-- Fixture state whose baselines match `envW`'s file contents. -/
def st1 : RefreshState := ⟨hash [], hash [97, 98, 99]⟩

/-! ## Claims about the refresh cycle -/

/-- C2: in a refresh cycle where a settings file is read and parsed
successfully and its fingerprint differs from the stored baseline for that
kind, `UpdateSettings` is called exactly once in that cycle with the newly
parsed document, and when the call succeeds the stored fingerprint for
that kind is set to the new content's fingerprint. -/
theorem refresh_change_single_update (pm : List Nat → Except String M)
    (pa : List Nat → Except String A) (cfg : Config) (env : CycleEnv M A)
    (st : RefreshState) :
    (∀ d h, readManagerSettings pm env.managerFile cfg.ManagerSettingsFilename = .ok (d, h) →
      h ≠ st.managerSettingsHash →
      (refreshCycle pm pa cfg env st).2.managerCalls = [⟨d, env.managerUpdateErr⟩] ∧
      (env.managerUpdateErr = none →
        (refreshCycle pm pa cfg env st).1.managerSettingsHash = h)) ∧
    (∀ d h, readAPISettings pa env.apiFile cfg.APISettingsFilename = .ok (d, h) →
      h ≠ st.apiSettingsHash →
      (refreshCycle pm pa cfg env st).2.apiCalls = [⟨d, env.apiUpdateErr⟩] ∧
      (env.apiUpdateErr = none →
        (refreshCycle pm pa cfg env st).1.apiSettingsHash = h)) := by
  constructor
  · intro d h hread hne
    simp [refreshCycle, hread, hne]
  · intro d h hread hne
    simp [refreshCycle, hread, hne]

/-- Witness for C2 at a concrete input: the empty manager settings file
against an empty baseline triggers one update with the parsed document,
and the stored fingerprint becomes the file's hash. -/
theorem refresh_change_single_update_witness :
    (refreshCycle parseLen parseLen cfg0 envW st0).2.managerCalls = [⟨0, none⟩] ∧
    (refreshCycle parseLen parseLen cfg0 envW st0).1.managerSettingsHash = hash [] := by
  have h := (refresh_change_single_update parseLen parseLen cfg0 envW st0).1 0 (hash [])
    rfl (by decide)
  exact ⟨h.1, h.2 rfl⟩

/-- C3: in a refresh cycle where a settings file is read and parsed
successfully and its fingerprint equals the stored baseline for that kind,
`UpdateSettings` is not called for that kind and the stored fingerprint is
unchanged. -/
theorem refresh_unchanged_no_update (pm : List Nat → Except String M)
    (pa : List Nat → Except String A) (cfg : Config) (env : CycleEnv M A)
    (st : RefreshState) :
    (∀ d h, readManagerSettings pm env.managerFile cfg.ManagerSettingsFilename = .ok (d, h) →
      h = st.managerSettingsHash →
      (refreshCycle pm pa cfg env st).2.managerCalls = [] ∧
      (refreshCycle pm pa cfg env st).1.managerSettingsHash = st.managerSettingsHash) ∧
    (∀ d h, readAPISettings pa env.apiFile cfg.APISettingsFilename = .ok (d, h) →
      h = st.apiSettingsHash →
      (refreshCycle pm pa cfg env st).2.apiCalls = [] ∧
      (refreshCycle pm pa cfg env st).1.apiSettingsHash = st.apiSettingsHash) := by
  constructor
  · intro d h hread heq
    simp [refreshCycle, hread, heq]
  · intro d h hread heq
    simp [refreshCycle, hread, heq]

/-- Witness for C3 at a concrete input: with the baseline equal to the
file's hash, no update is pushed and the fingerprint is unchanged. -/
theorem refresh_unchanged_no_update_witness :
    (refreshCycle parseLen parseLen cfg0 envW st1).2.managerCalls = [] ∧
    (refreshCycle parseLen parseLen cfg0 envW st1).1.managerSettingsHash =
      st1.managerSettingsHash :=
  (refresh_unchanged_no_update parseLen parseLen cfg0 envW st1).1 0 (hash []) rfl rfl

/-- Fixture cycle environment in which both `UpdateSettings` calls would
return an error. -/
def envFailW : CycleEnv Nat Nat :=
  ⟨.ok [], .ok [97, 98, 99], some "update failed", some "update failed"⟩

/-- Counterexample to C1: a concrete cycle in which the manager settings
file is read and parsed successfully, its fingerprint differs from the
stored baseline, and `UpdateSettings` returns an error — yet the stored
fingerprint does not keep its old value: `refreshSettings` assigns the new
hash even when the update fails (flexible/main.go:173-177). -/
theorem refresh_update_failure_keeps_hash_false :
    readManagerSettings parseLen envFailW.managerFile cfg0.ManagerSettingsFilename =
      .ok (0, hash []) ∧
    hash [] ≠ st0.managerSettingsHash ∧
    (refreshCycle parseLen parseLen cfg0 envFailW st0).2.managerCalls =
      [⟨0, some "update failed"⟩] ∧
    (refreshCycle parseLen parseLen cfg0 envFailW st0).1.managerSettingsHash ≠
      st0.managerSettingsHash := by
  decide

/-- C1 as amended: when a settings file is read and parsed successfully,
its fingerprint differs from the stored baseline, and `UpdateSettings`
returns an error, the stored fingerprint is nonetheless set to the new
content's fingerprint, so on the next cycle with unchanged file content no
further update is attempted (the failed update is not retried). -/
theorem refresh_update_failure_updates_hash (pm : List Nat → Except String M)
    (pa : List Nat → Except String A) (cfg : Config) (env : CycleEnv M A)
    (st : RefreshState) :
    (∀ d h e, readManagerSettings pm env.managerFile cfg.ManagerSettingsFilename = .ok (d, h) →
      h ≠ st.managerSettingsHash → env.managerUpdateErr = some e →
      (refreshCycle pm pa cfg env st).1.managerSettingsHash = h ∧
      (refreshCycle pm pa cfg env st).2.managerCalls = [⟨d, some e⟩] ∧
      (∀ env2 : CycleEnv M A, env2.managerFile = env.managerFile →
        (refreshCycle pm pa cfg env2 (refreshCycle pm pa cfg env st).1).2.managerCalls = [] ∧
        (refreshCycle pm pa cfg env2
          (refreshCycle pm pa cfg env st).1).1.managerSettingsHash = h)) ∧
    (∀ d h e, readAPISettings pa env.apiFile cfg.APISettingsFilename = .ok (d, h) →
      h ≠ st.apiSettingsHash → env.apiUpdateErr = some e →
      (refreshCycle pm pa cfg env st).1.apiSettingsHash = h ∧
      (refreshCycle pm pa cfg env st).2.apiCalls = [⟨d, some e⟩] ∧
      (∀ env2 : CycleEnv M A, env2.apiFile = env.apiFile →
        (refreshCycle pm pa cfg env2 (refreshCycle pm pa cfg env st).1).2.apiCalls = [] ∧
        (refreshCycle pm pa cfg env2
          (refreshCycle pm pa cfg env st).1).1.apiSettingsHash = h)) := by
  constructor
  · intro d h e hread hne herr
    have h1 : (refreshCycle pm pa cfg env st).1.managerSettingsHash = h := by
      simp [refreshCycle, hread, hne]
    refine ⟨h1, by simp [refreshCycle, hread, hne, herr], ?_⟩
    intro env2 hfile
    have hread2 : readManagerSettings pm env2.managerFile cfg.ManagerSettingsFilename =
        .ok (d, h) := by rw [hfile]; exact hread
    exact ⟨by simp [refreshCycle, hread, hread2, hne],
      by simp [refreshCycle, hread, hread2, hne]⟩
  · intro d h e hread hne herr
    have h1 : (refreshCycle pm pa cfg env st).1.apiSettingsHash = h := by
      simp [refreshCycle, hread, hne]
    refine ⟨h1, by simp [refreshCycle, hread, hne, herr], ?_⟩
    intro env2 hfile
    have hread2 : readAPISettings pa env2.apiFile cfg.APISettingsFilename =
        .ok (d, h) := by rw [hfile]; exact hread
    exact ⟨by simp [refreshCycle, hread, hread2, hne],
      by simp [refreshCycle, hread, hread2, hne]⟩

/-- Witness for the amended C1 at a concrete input: the failed update
leaves the new hash stored, and the immediately following cycle with the
same file content pushes no update. -/
theorem refresh_update_failure_updates_hash_witness :
    (refreshCycle parseLen parseLen cfg0 envFailW st0).1.managerSettingsHash = hash [] ∧
    (refreshCycle parseLen parseLen cfg0 envFailW st0).2.managerCalls =
      [⟨0, some "update failed"⟩] ∧
    (refreshCycle parseLen parseLen cfg0 envFailW
      (refreshCycle parseLen parseLen cfg0 envFailW st0).1).2.managerCalls = [] := by
  have h := (refresh_update_failure_updates_hash parseLen parseLen cfg0 envFailW st0).1 0
    (hash []) "update failed" rfl (by decide) rfl
  exact ⟨h.1, h.2.1, (h.2.2 envFailW rfl).1⟩

/-- C4: the two settings kinds are processed independently within a cycle:
a read/parse failure for one kind leaves that kind's stored fingerprint
unchanged and pushes no update for it, while the other kind is still read,
compared and (if changed) updated in the same cycle. -/
theorem refresh_kinds_independent (pm : List Nat → Except String M)
    (pa : List Nat → Except String A) (cfg : Config) (env : CycleEnv M A)
    (st : RefreshState) :
    (∀ s, readManagerSettings pm env.managerFile cfg.ManagerSettingsFilename = .error s →
      (refreshCycle pm pa cfg env st).1.managerSettingsHash = st.managerSettingsHash ∧
      (refreshCycle pm pa cfg env st).2.managerCalls = [] ∧
      (∀ d h, readAPISettings pa env.apiFile cfg.APISettingsFilename = .ok (d, h) →
        h ≠ st.apiSettingsHash →
        (refreshCycle pm pa cfg env st).2.apiCalls = [⟨d, env.apiUpdateErr⟩] ∧
        (refreshCycle pm pa cfg env st).1.apiSettingsHash = h)) ∧
    (∀ s, readAPISettings pa env.apiFile cfg.APISettingsFilename = .error s →
      (refreshCycle pm pa cfg env st).1.apiSettingsHash = st.apiSettingsHash ∧
      (refreshCycle pm pa cfg env st).2.apiCalls = [] ∧
      (∀ d h, readManagerSettings pm env.managerFile cfg.ManagerSettingsFilename = .ok (d, h) →
        h ≠ st.managerSettingsHash →
        (refreshCycle pm pa cfg env st).2.managerCalls = [⟨d, env.managerUpdateErr⟩] ∧
        (refreshCycle pm pa cfg env st).1.managerSettingsHash = h)) := by
  constructor
  · intro s hfail
    refine ⟨by simp [refreshCycle, hfail], by simp [refreshCycle, hfail], ?_⟩
    intro d h hread hne
    exact ⟨by simp [refreshCycle, hread, hne], by simp [refreshCycle, hread, hne]⟩
  · intro s hfail
    refine ⟨by simp [refreshCycle, hfail], by simp [refreshCycle, hfail], ?_⟩
    intro d h hread hne
    exact ⟨by simp [refreshCycle, hread, hne], by simp [refreshCycle, hread, hne]⟩

/-- Fixture cycle environment: manager settings file unreadable, API
settings file fine. -/
def envMgrFailW : CycleEnv Nat Nat :=
  ⟨.error "open manager-settings.yaml: no such file or directory",
   .ok [97, 98, 99], none, none⟩

/-- Witness for C4 at a concrete input: the manager read fails, yet the
changed API settings are still pushed in the same cycle. -/
theorem refresh_kinds_independent_witness :
    (refreshCycle parseLen parseLen cfg0 envMgrFailW st0).1.managerSettingsHash =
      st0.managerSettingsHash ∧
    (refreshCycle parseLen parseLen cfg0 envMgrFailW st0).2.managerCalls = [] ∧
    (refreshCycle parseLen parseLen cfg0 envMgrFailW st0).2.apiCalls = [⟨3, none⟩] ∧
    (refreshCycle parseLen parseLen cfg0 envMgrFailW st0).1.apiSettingsHash =
      hash [97, 98, 99] := by
  have h := (refresh_kinds_independent parseLen parseLen cfg0 envMgrFailW st0).1
    ("failed to read manager settings file manager-settings.yaml: " ++
      "open manager-settings.yaml: no such file or directory") rfl
  have h2 := h.2.2 3 (hash [97, 98, 99]) rfl (by decide)
  exact ⟨h.1, h.2.1, h2.1, h2.2⟩

/-- Unfolding step: a timer wake-up runs one cycle and loops. -/
theorem refreshSettings_timer_cons (pm : List Nat → Except String M)
    (pa : List Nat → Except String A) (cfg : Config) (env : CycleEnv M A)
    (rest : List (LoopEvent M A)) (st : RefreshState) :
    refreshSettings pm pa cfg (LoopEvent.timer env :: rest) st =
      match refreshSettings pm pa cfg rest (refreshCycle pm pa cfg env st).1 with
      | .returned err trs fin =>
          .returned err ((refreshCycle pm pa cfg env st).2 :: trs) fin
      | .running trs s => .running ((refreshCycle pm pa cfg env st).2 :: trs) s := rfl

/-- Unfolding step: a cancellation wake-up returns `ctx.Err()` at once. -/
theorem refreshSettings_cancelled_cons (pm : List Nat → Except String M)
    (pa : List Nat → Except String A) (cfg : Config)
    (rest : List (LoopEvent M A)) (st : RefreshState) :
    refreshSettings pm pa cfg (LoopEvent.cancelled :: rest) st =
      .returned .canceled [] st := rfl

/-- C5: once the shared context is cancelled, the refresh loop returns the
context's cancellation error (`context.Canceled`) and begins no further
cycles: the run is identical whatever wake-ups would have followed the
cancellation, and the trace contains exactly the cycles that completed
before it. -/
theorem refresh_cancellation_terminates (pm : List Nat → Except String M)
    (pa : List Nat → Except String A) (cfg : Config)
    (pre post : List (LoopEvent M A)) (st : RefreshState)
    (hpre : LoopEvent.cancelled ∉ pre) :
    refreshSettings pm pa cfg (pre ++ LoopEvent.cancelled :: post) st =
      refreshSettings pm pa cfg (pre ++ [LoopEvent.cancelled]) st ∧
    ∃ trace fin,
      refreshSettings pm pa cfg (pre ++ LoopEvent.cancelled :: post) st =
        .returned GoErr.canceled trace fin ∧
      trace.length = pre.length := by
  induction pre generalizing st with
  | nil => exact ⟨rfl, [], st, rfl, rfl⟩
  | cons e rest ih =>
    cases e with
    | cancelled => exact absurd (List.mem_cons_self _ _) hpre
    | timer env =>
      have hpre' : LoopEvent.cancelled ∉ rest := fun hm =>
        hpre (List.mem_cons_of_mem _ hm)
      obtain ⟨heq, trace, fin, hret, hlen⟩ := ih (refreshCycle pm pa cfg env st).1 hpre'
      refine ⟨?_, (refreshCycle pm pa cfg env st).2 :: trace, fin, ?_, ?_⟩
      · simp only [List.cons_append, refreshSettings_timer_cons]
        rw [heq]
      · simp only [List.cons_append, refreshSettings_timer_cons]
        rw [hret]
      · simp [hlen]

/-- Witness for C5 at a concrete input: one completed cycle, then
cancellation; the events scheduled after the cancellation are never
processed. -/
theorem refresh_cancellation_terminates_witness :
    refreshSettings parseLen parseLen cfg0
        ([LoopEvent.timer envW] ++ LoopEvent.cancelled :: [LoopEvent.timer envFailW]) st0 =
      refreshSettings parseLen parseLen cfg0
        ([LoopEvent.timer envW] ++ [LoopEvent.cancelled]) st0 ∧
    ∃ trace fin,
      refreshSettings parseLen parseLen cfg0
          ([LoopEvent.timer envW] ++ LoopEvent.cancelled :: [LoopEvent.timer envFailW]) st0 =
        .returned GoErr.canceled trace fin ∧
      trace.length = [LoopEvent.timer (M := Nat) (A := Nat) envW].length :=
  refresh_cancellation_terminates parseLen parseLen cfg0 [LoopEvent.timer envW]
    [LoopEvent.timer envFailW] st0 (by decide)

/-! ## Claims about startup, shutdown and exit codes -/

/-- C6: for every error value returned by the main implementation, the
process exit code is 0 when the error is nil or wraps `context.Canceled`,
and 1 for any other error. -/
theorem exitMain_zero_iff_nil_or_canceled (environ : String → Option String)
    (pm : List Nat → Except String M) (pa : List Nat → Except String A)
    (w : MainWorld M A) :
    (mainExitCode environ pm pa w = 0 ∨ mainExitCode environ pm pa w = 1) ∧
    (mainExitCode environ pm pa w = 0 ↔
      (mainImpl environ pm pa w).1 = none ∨
      ∃ g, (mainImpl environ pm pa w).1 = some g ∧ errorsIsCanceled g = true) := by
  cases hr : (mainImpl environ pm pa w).1 with
  | none => simp [mainExitCode, exitMain, hr]
  | some g =>
    cases hg : errorsIsCanceled g with
    | false => simp [mainExitCode, exitMain, hr, hg]
    | true => simp [mainExitCode, exitMain, hr, hg]

/-- C7: any panic in the main flow (modelled as the `.error` branch of the
`config.New()`-plus-body computation, which includes the panics thrown for
malformed integer or boolean environment variables) is recovered at the
outermost frame of `mainImpl`, converted into a returned error carrying
the panic value and the captured stack, and yields process exit code 1. -/
theorem mainImpl_panic_recovered (environ : String → Option String)
    (pm : List Nat → Except String M) (pa : List Nat → Except String A)
    (w : MainWorld M A) (panicMsg : String)
    (hp : (configNew environ).bind (fun cfg => mainImplBody pm pa cfg w) =
      .error panicMsg) :
    mainImpl environ pm pa w =
      (some (.msg ("panic: " ++ panicMsg ++ "\n" ++ w.stack)), false) ∧
    mainExitCode environ pm pa w = 1 := by
  have h1 : mainImpl environ pm pa w =
      (some (.msg ("panic: " ++ panicMsg ++ "\n" ++ w.stack)), false) := by
    unfold mainImpl
    rw [hp]
  exact ⟨h1, by simp [mainExitCode, exitMain, h1, errorsIsCanceled]⟩

/-- Fixture backend world in which every external construction succeeds. -/
def bwOk : BackendWorld :=
  ⟨.ok (), .ok (), .ok (), .ok (), .ok (), .ok (), .ok (), .ok (), .ok ()⟩

/-- Fixture main world in which every external call succeeds and the task
group ends by cancellation. -/
def mwOk : MainWorld Nat Nat :=
  ⟨bwOk, .ok (), .ok (), .ok (), .ok [], .ok [97, 98, 99], some .canceled,
   "goroutine 1 [running]"⟩

/-- Fixture environment with a malformed integer environment variable. -/
def environPanicW : String → Option String := fun v =>
  if v = "AWS_MAX_RETRY_ATTEMPTS" then some "not-a-number" else none

/-- The panic value `GetEnvIntIfSet` raises on `environPanicW`. -/
def panicMsgW : String :=
  "failed to parse environment variable AWS_MAX_RETRY_ATTEMPTS as int: " ++
    "strconv.Atoi: parsing \"not-a-number\": invalid syntax"

/-- Witness for C7 at a concrete input: a malformed
`AWS_MAX_RETRY_ATTEMPTS` panics during `config.New()`, `mainImpl` returns
the recovered panic as an error, and the process exits with code 1. -/
theorem mainImpl_panic_recovered_witness :
    mainImpl environPanicW parseLen parseLen mwOk =
      (some (.msg ("panic: " ++ panicMsgW ++ "\n" ++ mwOk.stack)), false) ∧
    mainExitCode environPanicW parseLen parseLen mwOk = 1 :=
  mainImpl_panic_recovered environPanicW parseLen parseLen mwOk panicMsgW (by rfl)

/-- C8: the fingerprint is a deterministic pure function of the raw file
bytes: any two settings reads (manager or API, any file, any cycle) that
observe identical byte content produce identical fingerprints, namely the
hex-encoded SHA-256 of those bytes. -/
theorem fingerprint_pure_function_of_bytes (pm : List Nat → Except String M)
    (pa : List Nat → Except String A) (r1 r2 : Except String (List Nat))
    (f1 f2 : String) (b : List Nat) (d1 : M) (d2 : A) (h1 h2 : String)
    (hr1 : r1 = .ok b) (hr2 : r2 = .ok b)
    (hread1 : readManagerSettings pm r1 f1 = .ok (d1, h1))
    (hread2 : readAPISettings pa r2 f2 = .ok (d2, h2)) :
    h1 = h2 ∧ h1 = hexEncode (sha256 b) := by
  subst hr1
  subst hr2
  have e1 : h1 = hash b := by
    cases hp : pm b with
    | error s => simp [readManagerSettings, hp] at hread1
    | ok s =>
      simp [readManagerSettings, hp] at hread1
      exact hread1.2.symm
  have e2 : h2 = hash b := by
    cases hp : pa b with
    | error s => simp [readAPISettings, hp] at hread2
    | ok s =>
      simp [readAPISettings, hp] at hread2
      exact hread2.2.symm
  rw [e1, e2]
  exact ⟨rfl, rfl⟩

/-- Witness for C8 at a concrete input: a manager read and an API read of
the same bytes yield the same fingerprint, the hex-encoded SHA-256. -/
theorem fingerprint_pure_function_of_bytes_witness :
    hash [97, 98, 99] = hash [97, 98, 99] ∧
    hash [97, 98, 99] = hexEncode (sha256 [97, 98, 99]) :=
  fingerprint_pure_function_of_bytes parseLen parseLen (.ok [97, 98, 99])
    (.ok [97, 98, 99]) "manager-settings.yaml" "api-settings.yaml" [97, 98, 99]
    3 3 (hash [97, 98, 99]) (hash [97, 98, 99]) rfl rfl rfl rfl

/-- C9: when a backend factory rejects the configuration — the queue-mode
discriminator unrecognized by `newAlertQueue`, or (with an in-memory
queue) the database-mode discriminator unrecognized by `newDatabase` —
`mainImpl` returns the wrapped error naming the unknown mode before the
API server, manager or refresh-loop tasks are started, and the process
exits with code 1. -/
theorem startup_unknown_backend_aborts (environ : String → Option String)
    (pm : List Nat → Except String M) (pa : List Nat → Except String A)
    (w : MainWorld M A) (cfg : Config)
    (hcfg : configNew environ = .ok cfg) (hredis : cfg.Redis.Addr ≠ "") :
    (goToLower cfg.QueueMode ≠ "sqs" → goToLower cfg.QueueMode ≠ "redis" →
     goToLower cfg.QueueMode ≠ "in-memory" →
      mainImpl environ pm pa w =
        (some (.wrap "failed to create alert queue"
          (.msg ("unknown queue mode: " ++ cfg.QueueMode))), false) ∧
      mainExitCode environ pm pa w = 1) ∧
    (goToLower cfg.QueueMode = "in-memory" →
     goToLower cfg.DatabaseMode ≠ "dynamodb" → goToLower cfg.DatabaseMode ≠ "postgres" →
     goToLower cfg.DatabaseMode ≠ "" →
      mainImpl environ pm pa w =
        (some (.wrap "failed to create database client"
          (.msg ("unknown database mode: " ++ cfg.DatabaseMode))), false) ∧
      mainExitCode environ pm pa w = 1) := by
  constructor
  · intro h1 h2 h3
    have hmain : mainImpl environ pm pa w =
        (some (.wrap "failed to create alert queue"
          (.msg ("unknown queue mode: " ++ cfg.QueueMode))), false) := by
      simp [mainImpl, hcfg, Except.bind, mainImplBody, newRedisClient, hredis,
        newAlertQueue, h1, h2, h3]
    exact ⟨hmain, by simp [mainExitCode, exitMain, hmain, errorsIsCanceled]⟩
  · intro hq h1 h2 h3
    have hmain : mainImpl environ pm pa w =
        (some (.wrap "failed to create database client"
          (.msg ("unknown database mode: " ++ cfg.DatabaseMode))), false) := by
      simp [mainImpl, hcfg, Except.bind, mainImplBody, newRedisClient, hredis,
        newAlertQueue, newCommandQueue, newDatabase, hq, h1, h2, h3]
    exact ⟨hmain, by simp [mainExitCode, exitMain, hmain, errorsIsCanceled]⟩

/-- Fixture environment selecting an unrecognized queue mode. -/
def environQueueW : String → Option String := fun v =>
  if v = "QUEUE_MODE" then some "kafka"
  else if v = "REDIS_ADDR" then some "localhost:6379"
  else none

/-- The configuration produced from `environQueueW`. -/
def cfgQueueW : Config :=
  { cfg0 with
    QueueMode := "kafka"
    Redis := ⟨"localhost:6379", "", "", 0⟩ }

/-- Fixture environment selecting an unrecognized database mode. -/
def environDbW : String → Option String := fun v =>
  if v = "QUEUE_MODE" then some "in-memory"
  else if v = "DATABASE_MODE" then some "oracle"
  else if v = "REDIS_ADDR" then some "localhost:6379"
  else none

/-- The configuration produced from `environDbW`. -/
def cfgDbW : Config :=
  { cfg0 with
    QueueMode := "in-memory"
    DatabaseMode := "oracle"
    Redis := ⟨"localhost:6379", "", "", 0⟩ }

/-- Witness for C9 at concrete inputs: `QUEUE_MODE=kafka` and
`DATABASE_MODE=oracle` each abort startup with the factory error naming
the unknown mode and exit code 1, with no services started. -/
theorem startup_unknown_backend_aborts_witness :
    (mainImpl environQueueW parseLen parseLen mwOk =
      (some (.wrap "failed to create alert queue"
        (.msg ("unknown queue mode: " ++ "kafka"))), false) ∧
     mainExitCode environQueueW parseLen parseLen mwOk = 1) ∧
    (mainImpl environDbW parseLen parseLen mwOk =
      (some (.wrap "failed to create database client"
        (.msg ("unknown database mode: " ++ "oracle"))), false) ∧
     mainExitCode environDbW parseLen parseLen mwOk = 1) := by
  constructor
  · exact (startup_unknown_backend_aborts environQueueW parseLen parseLen mwOk cfgQueueW
      (by rfl) (by decide)).1 (by decide) (by decide) (by decide)
  · exact (startup_unknown_backend_aborts environDbW parseLen parseLen mwOk cfgDbW
      (by rfl) (by decide)).2 (by decide) (by decide) (by decide) (by decide)

/-- C10: if the initial startup read of the manager or API settings file
fails (unreadable file or content that does not unmarshal), `mainImpl`
returns the wrapped error before any service or refresh-loop task is
started and the process exits with code 1 — whereas the same failure
inside a later refresh cycle leaves the loop running with its state
unchanged. -/
theorem startup_settings_read_failure_aborts (environ : String → Option String)
    (pm : List Nat → Except String M) (pa : List Nat → Except String A)
    (w : MainWorld M A) (cfg : Config)
    (hcfg : configNew environ = .ok cfg)
    (hredis : newRedisClient cfg.Redis = .ok ())
    (halert : newAlertQueue w.backends cfg = .ok ())
    (hcmd : newCommandQueue w.backends cfg = .ok ())
    (hdb : newDatabase w.backends cfg = .ok ())
    (hloc : w.loadLocation = .ok ())
    (hmv : w.managerCfgValidate = .ok ()) :
    (∀ s, readManagerSettings pm w.managerFile cfg.ManagerSettingsFilename = .error s →
      mainImpl environ pm pa w =
        (some (.wrap "failed to read manager settings" (.msg s)), false) ∧
      mainExitCode environ pm pa w = 1) ∧
    (∀ dm hm s,
      readManagerSettings pm w.managerFile cfg.ManagerSettingsFilename = .ok (dm, hm) →
      w.apiCfgValidate = .ok () →
      readAPISettings pa w.apiFile cfg.APISettingsFilename = .error s →
      mainImpl environ pm pa w =
        (some (.wrap "failed to read API settings" (.msg s)), false) ∧
      mainExitCode environ pm pa w = 1) ∧
    (∀ (env : CycleEnv M A) (st : RefreshState) s t,
      readManagerSettings pm env.managerFile cfg.ManagerSettingsFilename = .error s →
      readAPISettings pa env.apiFile cfg.APISettingsFilename = .error t →
      refreshSettings pm pa cfg [LoopEvent.timer env] st = .running [⟨[], []⟩] st) := by
  refine ⟨?_, ?_, ?_⟩
  · intro s hrm
    have hmain : mainImpl environ pm pa w =
        (some (.wrap "failed to read manager settings" (.msg s)), false) := by
      simp [mainImpl, hcfg, Except.bind, mainImplBody, hredis, halert, hcmd, hdb,
        hloc, hmv, hrm]
    exact ⟨hmain, by simp [mainExitCode, exitMain, hmain, errorsIsCanceled]⟩
  · intro dm hm s hrm hav hra
    have hmain : mainImpl environ pm pa w =
        (some (.wrap "failed to read API settings" (.msg s)), false) := by
      simp [mainImpl, hcfg, Except.bind, mainImplBody, hredis, halert, hcmd, hdb,
        hloc, hmv, hrm, hav, hra]
    exact ⟨hmain, by simp [mainExitCode, exitMain, hmain, errorsIsCanceled]⟩
  · intro env st s t hm ha
    have hcyc : refreshCycle pm pa cfg env st = (st, ⟨[], []⟩) := by
      simp [refreshCycle, hm, ha]
    rw [refreshSettings_timer_cons, hcyc]
    rfl

/-- Fixture environment for a runnable backend configuration. -/
def environRunW : String → Option String := fun v =>
  if v = "REDIS_ADDR" then some "localhost:6379"
  else if v = "POSTGRES_HOST" then some "db"
  else none

/-- The configuration produced from `environRunW`. -/
def cfgRunW : Config :=
  { cfg0 with
    Redis := ⟨"localhost:6379", "", "", 0⟩
    Postgres :=
      ⟨"db", 0, "", "", "", "disable", "issues", "alerts", "move_mappings",
        "channel_processing_state"⟩ }

/-- Fixture main world whose startup manager-settings read fails. -/
def mwMgrFailW : MainWorld Nat Nat :=
  ⟨bwOk, .ok (), .ok (), .ok (), .error "no such file", .ok [97, 98, 99],
   some .canceled, "goroutine 1 [running]"⟩

/-- Fixture cycle environment in which both settings reads fail. -/
def envBothFailW : CycleEnv Nat Nat := ⟨.error "no such file", .error "no such file", none, none⟩

/-- Witness for C10 at a concrete input: an unreadable manager settings
file aborts startup with exit code 1 and no services started, while the
same failure inside the refresh loop leaves the loop running with its
state unchanged. -/
theorem startup_settings_read_failure_aborts_witness :
    (mainImpl environRunW parseLen parseLen mwMgrFailW =
      (some (.wrap "failed to read manager settings"
        (.msg "failed to read manager settings file manager-settings.yaml: no such file")),
       false) ∧
     mainExitCode environRunW parseLen parseLen mwMgrFailW = 1) ∧
    refreshSettings parseLen parseLen cfgRunW [LoopEvent.timer envBothFailW] st0 =
      .running [⟨[], []⟩] st0 := by
  have H := startup_settings_read_failure_aborts environRunW parseLen parseLen mwMgrFailW
    cfgRunW (by rfl) (by decide) (by rfl) (by rfl) (by decide) rfl rfl
  exact ⟨H.1 _ rfl, H.2.2 envBothFailW st0 _ _ rfl rfl⟩

end Flexible
